import Mathlib

/-!
Shallow embedding of the `djorm-talk` Django models (`src/user/models.py`
and `src/address/models.py`).

The repository only declares schema (fields, foreign keys, one
many-to-many relation) plus one filtered manager.  We embed a database
state as lists of rows together with primary-key counters, and the write
operations (inserts, many-to-many add/remove) as functions on that state
returning `Except`.  Validation that in the real system is carried out by
the framework / storage layer (choice validation for `gender`,
referential-integrity checks for foreign keys) is modelled from the spec,
as noted on the corresponding definitions.  Queries (`objects`,
`stl_objects`) are embedded as pure functions of the state.
-/

/-- Primary-key type for `User` rows. -/
abbrev UserId := Nat

/-- Primary-key type for `Address` rows. -/
abbrev AddressId := Nat

/-- Primary-key type for `City` rows. -/
abbrev CityId := Nat

/-- `MALE = 1` (src/user/models.py line 5). -/
def MALE : Int := 1

/-- `FEMALE = 2` (src/user/models.py line 6). -/
def FEMALE : Int := 2

/-- `NA = 3` (src/user/models.py line 7). -/
def NA : Int := 3

/-- `ALIEN = 4` (src/user/models.py line 8). -/
def ALIEN : Int := 4

/-- The `GENDER_OPTIONS` choices tuple (src/user/models.py lines 10-15). -/
def GENDER_OPTIONS : List (Int × String) :=
  [(MALE, "Male"), (FEMALE, "Female"), (NA, "N/A"), (ALIEN, "Alien")]

/-- A persisted `User` row: the fields declared in `class User`
(src/user/models.py lines 24-32), an `id` primary key, and the
`password` / `last_login` fields inherited from `AbstractBaseUser`.
`DateTimeField` values are abstracted as `Nat` timestamps. -/
structure User where
  id : UserId
  name : String
  code_name : String
  date : Nat
  base_level : Int
  power_level : Int
  gender : Int
  update_count : Int
  password : String
  last_login : Option Nat
deriving Repr, DecidableEq

/-- A persisted `Address` row (src/address/models.py lines 8-12):
`street` and the `user` foreign key (the owner).  The `gangsta_users`
many-to-many relation is stored in a separate join table of the database
state, as a many-to-many field is in the real schema. -/
structure Address where
  id : AddressId
  street : String
  user : UserId
deriving Repr, DecidableEq

/-- A persisted `City` row (src/address/models.py lines 15-18):
the `address` foreign key and `name`. -/
structure City where
  id : CityId
  address : AddressId
  name : String
deriving Repr, DecidableEq

/-- The database state: one table per model, the join table backing
`Address.gangsta_users` (rows `(address id, user id)`), and the
auto-increment primary-key counters maintained by the storage layer. -/
structure DBState where
  users : List User
  addresses : List Address
  cities : List City
  gangsta_users : List (AddressId × UserId)
  nextUserId : Nat
  nextAddressId : Nat
  nextCityId : Nat
deriving Repr, DecidableEq

/-- The empty database; auto-increment keys start at 1. -/
def emptyDB : DBState := ⟨[], [], [], [], 1, 1, 1⟩

/-- The city name the manager filters on:
`filter(address__city__name__iexact='stl')` (src/user/models.py line 21). -/
def stlName : String := "stl"

/-- Lower-casing of a string, character by character. -/
def lowerStr (s : String) : String := ⟨s.data.map Char.toLower⟩

/-- The `iexact` lookup: case-insensitive exact string comparison. -/
def iexact (a b : String) : Bool := lowerStr a == lowerStr b

/-- `STLUserManger.get_query_set` (src/user/models.py lines 18-21):
all `User` rows joined across the `User ← Address ← City` reverse
foreign-key chain, keeping the rows whose city name `iexact`-matches
`"stl"`.  One result row is produced per matching join path (the query
has no `distinct()`), which is why the result is a list, not a set. -/
def STLUserManger.get_query_set (s : DBState) : List User :=
  s.users.flatMap (fun u =>
    (s.addresses.filter (fun a => a.user == u.id)).flatMap (fun a =>
      ((s.cities.filter (fun c => c.address == a.id)).filter
        (fun c => iexact c.name stlName)).map (fun _ => u)))

/-- The default manager `models.Manager()`: returns every `User` row. -/
def Manager.get_query_set (s : DBState) : List User := s.users

/-- `User.objects = models.Manager()` (src/user/models.py line 34). -/
def User.objects : DBState → List User := Manager.get_query_set

/-- `User.stl_objects = STLUserManger()` (src/user/models.py line 35). -/
def User.stl_objects : DBState → List User := STLUserManger.get_query_set

/-- Evaluating the `stl_objects` query against a database state: the
query machinery returns the selected rows and leaves the state as it
found it — the manager's `get_query_set` only builds and runs a SELECT. -/
def runStlQuery (s : DBState) : List User × DBState :=
  (User.stl_objects s, s)

/-- Errors surfaced to callers of write operations. -/
inductive DBError where
  | integrityError : String → DBError
  | validationError : String → DBError
deriving Repr, DecidableEq

/-- Modelled from the spec: write-time validation of a gender code
against the declared `GENDER_OPTIONS` choices (the spec's "gender must
be one of the four defined codes"; the enforcement machinery lives in
the framework / storage layer, not in this repository's source). -/
def genderValid (g : Int) : Bool := GENDER_OPTIONS.any (fun p => p.1 == g)

/-- The caller-supplied fields for a `User` insert.  `gender` is
optional: the field declares `default=NA` (src/user/models.py line 31),
so an omitted gender is stored as `NA`. -/
structure UserInput where
  name : String
  code_name : String
  date : Nat
  base_level : Int
  power_level : Int
  gender : Option Int
  update_count : Int
  password : String
  last_login : Option Nat
deriving Repr, DecidableEq

/-- Inserting a `User` row.  The stored gender is the supplied code, or
the declared default `NA` when omitted.  Modelled from the spec: the
write fails with a validation error when the gender code is not one of
the `GENDER_OPTIONS` choices. -/
def insertUser (s : DBState) (inp : UserInput) : Except DBError DBState :=
  if genderValid (inp.gender.getD NA) then
    .ok { s with
          users := s.users ++
            [⟨s.nextUserId, inp.name, inp.code_name, inp.date, inp.base_level,
              inp.power_level, inp.gender.getD NA, inp.update_count,
              inp.password, inp.last_login⟩],
          nextUserId := s.nextUserId + 1 }
  else
    .error (.validationError "gender")

/-- Inserting an `Address` row with owner `uid`
(`user = models.ForeignKey(User)`, src/address/models.py line 11).
Modelled from the spec: the write fails with a referential-integrity
error, and stores nothing, when the `user` reference does not resolve
to an existing `User` (the enforcement lives in the storage layer). -/
def insertAddress (s : DBState) (street : String) (uid : UserId) :
    Except DBError DBState :=
  if s.users.any (fun u => u.id == uid) then
    .ok { s with
          addresses := s.addresses ++ [⟨s.nextAddressId, street, uid⟩],
          nextAddressId := s.nextAddressId + 1 }
  else
    .error (.integrityError "Address.user")

/-- Inserting a `City` row under address `aid`
(`address = models.ForeignKey(Address)`, src/address/models.py line 17).
Modelled from the spec: the write fails with a referential-integrity
error, and stores nothing, when the `address` reference does not
resolve to an existing `Address`. -/
def insertCity (s : DBState) (aid : AddressId) (nm : String) :
    Except DBError DBState :=
  if s.addresses.any (fun a => a.id == aid) then
    .ok { s with
          cities := s.cities ++ [⟨s.nextCityId, aid, nm⟩],
          nextCityId := s.nextCityId + 1 }
  else
    .error (.integrityError "City.address")

/-- `address.gangsta_users.add(user)`: records a membership row in the
join table backing the many-to-many field
(src/address/models.py line 12).  Adding an already-present pair is a
no-op, as for a many-to-many through table with its unique constraint.
Modelled from the spec: both endpoints must exist. -/
def addGangstaUser (s : DBState) (aid : AddressId) (uid : UserId) :
    Except DBError DBState :=
  if s.addresses.any (fun a => a.id == aid) && s.users.any (fun u => u.id == uid) then
    if (aid, uid) ∈ s.gangsta_users then
      .ok s
    else
      .ok { s with gangsta_users := s.gangsta_users ++ [(aid, uid)] }
  else
    .error (.integrityError "gangsta_users")

/-- `address.gangsta_users.remove(user)`: deletes the membership row
from the join table (a no-op when the pair is absent). -/
def removeGangstaUser (s : DBState) (aid : AddressId) (uid : UserId) : DBState :=
  { s with gangsta_users :=
      s.gangsta_users.filter (fun p => !(p.1 == aid && p.2 == uid)) }

/-- The many-to-many members of an address: the user ids paired with
`aid` in the join table. -/
def gangstaUsersOf (s : DBState) (aid : AddressId) : List UserId :=
  (s.gangsta_users.filter (fun p => p.1 == aid)).map (fun p => p.2)

/-- Database states reachable from the empty database through the write
operations the schema supports (inserts and many-to-many membership
changes); these are the states whose rows are "persisted". -/
inductive Reachable : DBState → Prop where
  | empty : Reachable emptyDB
  | insUser {s s' : DBState} {inp : UserInput} :
      Reachable s → insertUser s inp = .ok s' → Reachable s'
  | insAddress {s s' : DBState} {street : String} {uid : UserId} :
      Reachable s → insertAddress s street uid = .ok s' → Reachable s'
  | insCity {s s' : DBState} {aid : AddressId} {nm : String} :
      Reachable s → insertCity s aid nm = .ok s' → Reachable s'
  | addG {s s' : DBState} {aid : AddressId} {uid : UserId} :
      Reachable s → addGangstaUser s aid uid = .ok s' → Reachable s'
  | removeG {s : DBState} (aid : AddressId) (uid : UserId) :
      Reachable s → Reachable (removeGangstaUser s aid uid)

/-! ### Characterization lemmas for the operations -/

/-- Membership in the `stl_objects` result: exactly the persisted users
owning an address one of whose cities `iexact`-matches `"stl"`. -/
theorem mem_stl_objects {s : DBState} {u : User} :
    u ∈ User.stl_objects s ↔
      u ∈ s.users ∧ ∃ a ∈ s.addresses, a.user = u.id ∧
        ∃ c ∈ s.cities, c.address = a.id ∧ iexact c.name stlName = true := by
  simp only [User.stl_objects, STLUserManger.get_query_set, List.mem_flatMap,
    List.mem_filter, List.mem_map, beq_iff_eq]
  constructor
  · rintro ⟨v, hv, a, ⟨⟨ha, hau⟩, c, ⟨⟨⟨hc, hca⟩, hstl⟩, rfl⟩⟩⟩
    exact ⟨hv, a, ha, hau, c, hc, hca, hstl⟩
  · rintro ⟨hu, a, ha, hau, c, hc, hca, hstl⟩
    exact ⟨u, hu, a, ⟨⟨ha, hau⟩, c, ⟨⟨⟨hc, hca⟩, hstl⟩, rfl⟩⟩⟩

/-- A successful `User` insert appends exactly one row, with the next
primary key and the supplied fields (gender defaulted to `NA` when
omitted), and the stored gender passed choice validation. -/
theorem insertUser_ok {s s' : DBState} {inp : UserInput}
    (h : insertUser s inp = .ok s') :
    genderValid (inp.gender.getD NA) = true ∧
      s' = { s with
             users := s.users ++
               [⟨s.nextUserId, inp.name, inp.code_name, inp.date, inp.base_level,
                 inp.power_level, inp.gender.getD NA, inp.update_count,
                 inp.password, inp.last_login⟩],
             nextUserId := s.nextUserId + 1 } := by
  unfold insertUser at h
  split at h
  · next hg => cases h; exact ⟨hg, rfl⟩
  · exact absurd h (by simp)

/-- A successful `Address` insert appends exactly one row whose owner
reference resolved, and touches nothing else. -/
theorem insertAddress_ok {s s' : DBState} {street : String} {uid : UserId}
    (h : insertAddress s street uid = .ok s') :
    (∃ u ∈ s.users, u.id = uid) ∧
      s' = { s with
             addresses := s.addresses ++ [⟨s.nextAddressId, street, uid⟩],
             nextAddressId := s.nextAddressId + 1 } := by
  unfold insertAddress at h
  split at h
  · next hc =>
    cases h
    refine ⟨?_, rfl⟩
    simpa [List.any_eq_true, beq_iff_eq] using hc
  · exact absurd h (by simp)

/-- A successful `City` insert appends exactly one row whose address
reference resolved, and touches nothing else. -/
theorem insertCity_ok {s s' : DBState} {aid : AddressId} {nm : String}
    (h : insertCity s aid nm = .ok s') :
    (∃ a ∈ s.addresses, a.id = aid) ∧
      s' = { s with
             cities := s.cities ++ [⟨s.nextCityId, aid, nm⟩],
             nextCityId := s.nextCityId + 1 } := by
  unfold insertCity at h
  split at h
  · next hc =>
    cases h
    refine ⟨?_, rfl⟩
    simpa [List.any_eq_true, beq_iff_eq] using hc
  · exact absurd h (by simp)

/-- A successful many-to-many `add` changes at most the join table:
every model table and every primary-key counter is left unchanged. -/
theorem addGangstaUser_ok {s s' : DBState} {aid : AddressId} {uid : UserId}
    (h : addGangstaUser s aid uid = .ok s') :
    s'.users = s.users ∧ s'.addresses = s.addresses ∧ s'.cities = s.cities ∧
      s'.nextUserId = s.nextUserId ∧ s'.nextAddressId = s.nextAddressId ∧
      s'.nextCityId = s.nextCityId := by
  unfold addGangstaUser at h
  split at h
  · split at h <;> cases h <;> exact ⟨rfl, rfl, rfl, rfl, rfl, rfl⟩
  · exact absurd h (by simp)

/-- A many-to-many `remove` changes at most the join table. -/
theorem removeGangstaUser_frame (s : DBState) (aid : AddressId) (uid : UserId) :
    (removeGangstaUser s aid uid).users = s.users ∧
      (removeGangstaUser s aid uid).addresses = s.addresses ∧
      (removeGangstaUser s aid uid).cities = s.cities ∧
      (removeGangstaUser s aid uid).nextUserId = s.nextUserId := by
  exact ⟨rfl, rfl, rfl, rfl⟩

/-- Choice validation accepts exactly the four declared gender codes. -/
theorem genderValid_iff {g : Int} :
    genderValid g = true ↔ (g = MALE ∨ g = FEMALE ∨ g = NA ∨ g = ALIEN) := by
  simp only [genderValid, GENDER_OPTIONS, MALE, FEMALE, NA, ALIEN,
    List.any_cons, List.any_nil, Bool.or_eq_true, beq_iff_eq,
    Bool.false_eq_true, or_false]
  omega

/-! ### Invariants of reachable (persisted) states -/

/-- Every persisted user's gender is one of the four declared codes. -/
def gendersOk (s : DBState) : Prop :=
  ∀ u ∈ s.users, u.gender = MALE ∨ u.gender = FEMALE ∨ u.gender = NA ∨ u.gender = ALIEN

/-- Primary keys of users are below the counter and identify rows. -/
def userIdsOk (s : DBState) : Prop :=
  (∀ u ∈ s.users, u.id < s.nextUserId) ∧
    (∀ u ∈ s.users, ∀ v ∈ s.users, u.id = v.id → u = v)

/-- Every address's owner reference resolves to a persisted user. -/
def addrFK (s : DBState) : Prop :=
  ∀ a ∈ s.addresses, ∃ u ∈ s.users, u.id = a.user

/-- Every city's address reference resolves to a persisted address. -/
def cityFK (s : DBState) : Prop :=
  ∀ c ∈ s.cities, ∃ a ∈ s.addresses, a.id = c.address

/-- The conjunction of the schema-level invariants. -/
def DBInv (s : DBState) : Prop :=
  gendersOk s ∧ userIdsOk s ∧ addrFK s ∧ cityFK s

/-- Every reachable database state satisfies the schema invariants. -/
theorem reachable_inv {s : DBState} (h : Reachable s) : DBInv s := by
  induction h with
  | empty =>
    simp [DBInv, gendersOk, userIdsOk, addrFK, cityFK, emptyDB]
  | insUser hr hok ih =>
    obtain ⟨hg, rfl⟩ := insertUser_ok hok
    obtain ⟨hG, ⟨hBound, hUniq⟩, hA, hC⟩ := ih
    refine ⟨?_, ⟨?_, ?_⟩, ?_, ?_⟩
    · intro u hu
      rcases List.mem_append.mp hu with h1 | h1
      · exact hG u h1
      · rw [List.mem_singleton] at h1
        subst h1
        exact genderValid_iff.mp hg
    · intro u hu
      rcases List.mem_append.mp hu with h1 | h1
      · exact Nat.lt_succ_of_lt (hBound u h1)
      · rw [List.mem_singleton] at h1
        subst h1
        exact Nat.lt_succ_self _
    · intro u hu v hv heq
      rcases List.mem_append.mp hu with h1 | h1 <;>
        rcases List.mem_append.mp hv with h2 | h2
      · exact hUniq u h1 v h2 heq
      · rw [List.mem_singleton] at h2
        subst h2
        exact absurd heq (Nat.ne_of_lt (hBound u h1))
      · rw [List.mem_singleton] at h1
        subst h1
        exact absurd heq.symm (Nat.ne_of_lt (hBound v h2))
      · rw [List.mem_singleton] at h1 h2
        rw [h1, h2]
    · intro a ha
      obtain ⟨u, hu, he⟩ := hA a ha
      exact ⟨u, List.mem_append_left _ hu, he⟩
    · exact hC
  | insAddress hr hok ih =>
    obtain ⟨⟨w, hw, hwid⟩, rfl⟩ := insertAddress_ok hok
    obtain ⟨hG, hU, hA, hC⟩ := ih
    refine ⟨hG, hU, ?_, ?_⟩
    · intro a ha
      rcases List.mem_append.mp ha with h1 | h1
      · exact hA a h1
      · rw [List.mem_singleton] at h1
        subst h1
        exact ⟨w, hw, hwid⟩
    · intro c hc
      obtain ⟨a, ha, he⟩ := hC c hc
      exact ⟨a, List.mem_append_left _ ha, he⟩
  | insCity hr hok ih =>
    obtain ⟨⟨w, hw, hwid⟩, rfl⟩ := insertCity_ok hok
    obtain ⟨hG, hU, hA, hC⟩ := ih
    refine ⟨hG, hU, hA, ?_⟩
    intro c hc
    rcases List.mem_append.mp hc with h1 | h1
    · exact hC c h1
    · rw [List.mem_singleton] at h1
      subst h1
      exact ⟨w, hw, hwid⟩
  | addG hr hok ih =>
    obtain ⟨h1, h2, h3, h4, h5, h6⟩ := addGangstaUser_ok hok
    simp only [DBInv, gendersOk, userIdsOk, addrFK, cityFK, h1, h2, h3, h4] at ih ⊢
    exact ih
  | removeG aid uid hr ih =>
    exact ih

/-- Inserting a user with the gender field omitted always succeeds and
stores the declared default `NA`. -/
theorem insertUser_none (s : DBState) (nm cn : String) (d : Nat)
    (bl pl uc : Int) (pw : String) (ll : Option Nat) :
    insertUser s ⟨nm, cn, d, bl, pl, none, uc, pw, ll⟩ =
      .ok { s with
            users := s.users ++
              [⟨s.nextUserId, nm, cn, d, bl, pl, NA, uc, pw, ll⟩],
            nextUserId := s.nextUserId + 1 } := by
  unfold insertUser
  split
  · rfl
  · next hc => exact absurd rfl hc

/-! ### Concrete sample states, built by running the operations -/

/-- A sample persisted user row. -/
def sampleUser : User := ⟨1, "Al", "Capone", 0, 1, 2, 3, 0, "pw", none⟩

/-- The insert payload producing `sampleUser` (gender omitted). -/
def sampleInput : UserInput := ⟨"Al", "Capone", 0, 1, 2, none, 0, "pw", none⟩

/-- The database after inserting `sampleInput` into the empty database. -/
def dbUser : DBState := ⟨[sampleUser], [], [], [], 2, 1, 1⟩

/-- `dbUser` after inserting an address owned by user 1. -/
def dbAddr : DBState := ⟨[sampleUser], [⟨1, "Main St", 1⟩], [], [], 2, 2, 1⟩

/-- `dbAddr` after inserting a second address owned by user 1. -/
def dbAddr2 : DBState :=
  ⟨[sampleUser], [⟨1, "Main St", 1⟩, ⟨2, "Side St", 1⟩], [], [], 2, 3, 1⟩

/-- `dbAddr2` after inserting the city `"stl"` under address 1. -/
def dbDup1 : DBState :=
  ⟨[sampleUser], [⟨1, "Main St", 1⟩, ⟨2, "Side St", 1⟩],
    [⟨1, 1, "stl"⟩], [], 2, 3, 2⟩

/-- `dbDup1` after inserting the city `"STL"` under address 2: one user
owning two addresses whose cities both match the filter. -/
def dbDup : DBState :=
  ⟨[sampleUser], [⟨1, "Main St", 1⟩, ⟨2, "Side St", 1⟩],
    [⟨1, 1, "stl"⟩, ⟨2, 2, "STL"⟩], [], 2, 3, 3⟩

/-- `dbAddr` after inserting the city `"Chicago"` under address 1:
a state with no match for the `stl_objects` filter. -/
def dbChicago : DBState :=
  ⟨[sampleUser], [⟨1, "Main St", 1⟩], [⟨1, 1, "Chicago"⟩], [], 2, 2, 2⟩

/-- `dbAddr` after `address 1 . gangsta_users . add (user 1)`. -/
def dbGang : DBState := { dbAddr with gangsta_users := [(1, 1)] }

/-- `dbUser` is reachable: one user insert. -/
theorem reachable_dbUser : Reachable dbUser := by
  have h1 : insertUser emptyDB sampleInput = .ok dbUser := by rfl
  exact Reachable.insUser Reachable.empty h1

/-- `dbAddr` is reachable: a user insert then an address insert. -/
theorem reachable_dbAddr : Reachable dbAddr := by
  have h2 : insertAddress dbUser "Main St" 1 = .ok dbAddr := by rfl
  exact Reachable.insAddress reachable_dbUser h2

/-- `dbDup` is reachable: user, two addresses, two matching cities. -/
theorem reachable_dbDup : Reachable dbDup := by
  have h3 : insertAddress dbAddr "Side St" 1 = .ok dbAddr2 := by rfl
  have h4 : insertCity dbAddr2 1 "stl" = .ok dbDup1 := by rfl
  have h5 : insertCity dbDup1 2 "STL" = .ok dbDup := by rfl
  exact Reachable.insCity (Reachable.insCity
    (Reachable.insAddress reachable_dbAddr h3) h4) h5

/-! ### The claims -/

/-- C1: `stl_objects` returns exactly the Users that have an associated
Address whose associated City has a name `iexact`-equal to `"stl"`
(case-insensitive exact comparison, so `"STL"`, `"Stl"`, `"stl"` match
and `"St. Louis"` does not), and no other Users. -/
theorem stl_objects_exact :
    (∀ (s : DBState) (u : User),
        u ∈ User.stl_objects s ↔
          u ∈ s.users ∧ ∃ a ∈ s.addresses, a.user = u.id ∧
            ∃ c ∈ s.cities, c.address = a.id ∧ iexact c.name stlName = true) ∧
      iexact "STL" stlName = true ∧ iexact "Stl" stlName = true ∧
      iexact "stl" stlName = true ∧ iexact "St. Louis" stlName = false := by
  refine ⟨fun s u => mem_stl_objects, by decide, by decide, by decide, by decide⟩

/-- C2: in every reachable database state every persisted user's gender
is one of the four declared codes, and inserting a user with the gender
omitted stores the default `NA`. -/
theorem gender_choices_invariant :
    (∀ s : DBState, Reachable s →
        ∀ u ∈ s.users,
          u.gender = MALE ∨ u.gender = FEMALE ∨ u.gender = NA ∨ u.gender = ALIEN) ∧
      ∀ (s : DBState) (nm cn : String) (d : Nat) (bl pl uc : Int)
        (pw : String) (ll : Option Nat),
        ∃ s', insertUser s ⟨nm, cn, d, bl, pl, none, uc, pw, ll⟩ = .ok s' ∧
          ∃ u, s'.users = s.users ++ [u] ∧ u.gender = NA := by
  constructor
  · intro s hs
    exact (reachable_inv hs).1
  · intro s nm cn d bl pl uc pw ll
    exact ⟨_, insertUser_none s nm cn d bl pl uc pw ll, _, rfl, rfl⟩

/-- Witness for C2 at a concrete reachable state and user. -/
theorem gender_choices_invariant_witness :
    sampleUser.gender = MALE ∨ sampleUser.gender = FEMALE ∨
      sampleUser.gender = NA ∨ sampleUser.gender = ALIEN :=
  gender_choices_invariant.1 dbUser reachable_dbUser sampleUser (by decide)

/-- C3: inserting an `Address` whose `user` reference does not resolve
to an existing `User`, or a `City` whose `address` reference does not
resolve to an existing `Address`, fails with a referential-integrity
error surfaced to the caller, and produces no new state (no row is
stored). -/
theorem fk_violation_insert_fails (s : DBState) (street : String)
    (uid : UserId) (aid : AddressId) (nm : String) :
    ((∀ u ∈ s.users, u.id ≠ uid) →
        insertAddress s street uid = .error (.integrityError "Address.user") ∧
          ∀ s', insertAddress s street uid ≠ .ok s') ∧
      ((∀ a ∈ s.addresses, a.id ≠ aid) →
        insertCity s aid nm = .error (.integrityError "City.address") ∧
          ∀ s', insertCity s aid nm ≠ .ok s') := by
  constructor
  · intro h
    have hc : ¬(s.users.any (fun u => u.id == uid) = true) := by
      simp only [List.any_eq_true, beq_iff_eq]
      rintro ⟨u, hu, he⟩
      exact h u hu he
    have he : insertAddress s street uid = .error (.integrityError "Address.user") := by
      unfold insertAddress
      rw [if_neg hc]
    refine ⟨he, fun s' hko => ?_⟩
    rw [he] at hko
    exact Except.noConfusion hko
  · intro h
    have hc : ¬(s.addresses.any (fun a => a.id == aid) = true) := by
      simp only [List.any_eq_true, beq_iff_eq]
      rintro ⟨a, ha, he⟩
      exact h a ha he
    have he : insertCity s aid nm = .error (.integrityError "City.address") := by
      unfold insertCity
      rw [if_neg hc]
    refine ⟨he, fun s' hko => ?_⟩
    rw [he] at hko
    exact Except.noConfusion hko

/-- Witness for C3: against the empty database, both writes fail with
the integrity error. -/
theorem fk_violation_insert_fails_witness :
    insertAddress emptyDB "Main St" 1 = .error (.integrityError "Address.user") ∧
      insertCity emptyDB 1 "stl" = .error (.integrityError "City.address") :=
  ⟨((fk_violation_insert_fails emptyDB "Main St" 1 1 "stl").1 (by decide)).1,
   ((fk_violation_insert_fails emptyDB "Main St" 1 1 "stl").2 (by decide)).1⟩

/-- C4: when no user has an address whose city name matches `"stl"`
case-insensitively, `stl_objects` evaluates to the empty collection
(and, being a total function, raises no error). -/
theorem stl_objects_zero_matches (s : DBState)
    (h : ∀ u ∈ s.users, ¬∃ a ∈ s.addresses, a.user = u.id ∧
          ∃ c ∈ s.cities, c.address = a.id ∧ iexact c.name stlName = true) :
    User.stl_objects s = [] := by
  rw [List.eq_nil_iff_forall_not_mem]
  intro u hu
  rw [mem_stl_objects] at hu
  exact h u hu.1 hu.2

/-- Witness for C4: the state whose only city is `"Chicago"`. -/
theorem stl_objects_zero_matches_witness : User.stl_objects dbChicago = [] :=
  stl_objects_zero_matches dbChicago (by decide)

/-- C5: in every reachable state, every persisted address's `user`
reference identifies exactly one persisted user (the owner). -/
theorem address_owner_unique (s : DBState) (h : Reachable s) :
    ∀ a ∈ s.addresses, ∃! u, u ∈ s.users ∧ u.id = a.user := by
  intro a ha
  obtain ⟨-, ⟨-, hUniq⟩, hA, -⟩ := reachable_inv h
  obtain ⟨u, hu, hid⟩ := hA a ha
  refine ⟨u, ⟨hu, hid⟩, ?_⟩
  rintro v ⟨hv, hvid⟩
  exact hUniq v hv u hu (hvid.trans hid.symm)

/-- Witness for C5 at a concrete reachable state and address. -/
theorem address_owner_unique_witness :
    ∃! u, u ∈ dbAddr.users ∧ u.id = (⟨1, "Main St", 1⟩ : Address).user :=
  address_owner_unique dbAddr reachable_dbAddr ⟨1, "Main St", 1⟩ (by decide)

/-- C6: the `gangsta_users` set of a persisted address may be empty, and
both the many-to-many `add` and `remove` operations leave the address
table — in particular every address's `user` (owner) field — unchanged. -/
theorem gangsta_users_frame :
    (∃ s : DBState, Reachable s ∧ ∃ a ∈ s.addresses, gangstaUsersOf s a.id = []) ∧
      (∀ (s : DBState) (aid : AddressId) (uid : UserId) (s' : DBState),
          addGangstaUser s aid uid = .ok s' → s'.addresses = s.addresses) ∧
      ∀ (s : DBState) (aid : AddressId) (uid : UserId),
        (removeGangstaUser s aid uid).addresses = s.addresses := by
  refine ⟨⟨dbAddr, reachable_dbAddr, ⟨1, "Main St", 1⟩, by decide, by decide⟩, ?_, ?_⟩
  · intro s aid uid s' h
    exact (addGangstaUser_ok h).2.1
  · intro s aid uid
    rfl

/-- Witness for C6: a concrete successful `add` leaves the address
table unchanged. -/
theorem gangsta_users_frame_witness : dbGang.addresses = dbAddr.addresses :=
  gangsta_users_frame.2.1 dbAddr 1 1 dbGang (by rfl)

/-- C7: evaluating the `stl_objects` accessor is read-only: it returns
the selected rows and leaves every table of the database state
unchanged. -/
theorem stl_objects_readonly (s : DBState) :
    (runStlQuery s).1 = User.stl_objects s ∧ (runStlQuery s).2 = s ∧
      (runStlQuery s).2.users = s.users ∧
      (runStlQuery s).2.addresses = s.addresses ∧
      (runStlQuery s).2.cities = s.cities ∧
      (runStlQuery s).2.gangsta_users = s.gangsta_users :=
  ⟨rfl, rfl, rfl, rfl, rfl, rfl⟩

/-- C8: the join-based filter is not deduplicated: in the reachable
state `dbDup`, where one user owns two addresses each with a matching
city, `stl_objects` returns that user twice. -/
theorem stl_objects_duplicates :
    Reachable dbDup ∧ User.stl_objects dbDup = [sampleUser, sampleUser] ∧
      (User.stl_objects dbDup).count sampleUser = 2 :=
  ⟨reachable_dbDup, by decide, by decide⟩

/-- C9: the default manager `objects` returns every persisted user,
with no filtering on addresses or cities. -/
theorem objects_returns_all (s : DBState) (u : User) :
    (u ∈ User.objects s ↔ u ∈ s.users) ∧ User.objects s = s.users :=
  ⟨Iff.rfl, rfl⟩

/-- C10: the gender codes are the integers 1 (Male), 2 (Female),
3 (N/A), 4 (Alien), and an insert with the gender omitted stores the
integer 3. -/
theorem gender_integer_codes :
    MALE = 1 ∧ FEMALE = 2 ∧ NA = 3 ∧ ALIEN = 4 ∧
      GENDER_OPTIONS = [(1, "Male"), (2, "Female"), (3, "N/A"), (4, "Alien")] ∧
      ∀ (s : DBState) (nm cn : String) (d : Nat) (bl pl uc : Int)
        (pw : String) (ll : Option Nat),
        ∃ s', insertUser s ⟨nm, cn, d, bl, pl, none, uc, pw, ll⟩ = .ok s' ∧
          ∃ u, s'.users = s.users ++ [u] ∧ u.gender = (3 : Int) := by
  refine ⟨rfl, rfl, rfl, rfl, by decide, ?_⟩
  intro s nm cn d bl pl uc pw ll
  exact ⟨_, insertUser_none s nm cn d bl pl uc pw ll, _, rfl, rfl⟩
